import Mathlib

/-
Verification development for the PRISM notification subsystem
(src/notifications of the PRISM repository).

The Python source is shallowly embedded: Django model methods become pure
Lean functions over explicit records, datetimes become natural numbers
counting minutes since an epoch (a time-of-day is the value modulo 1440),
JSON type-allow dictionaries become association lists, and fallible
operations return Option.  Each definition mirrors one Python
function/method from src/notifications, keeping its name where Lean
syntax allows.
-/

namespace Prism

/-- Minutes in a day; a Python `datetime.time()` projection becomes `% 1440`. -/
def minutesPerDay : Nat := 1440

/-- Time-of-day of an instant, mirroring `notification_time.time()`
(instants are minutes since an epoch that starts at midnight). -/
def timeOfDay (t : Nat) : Nat := t % minutesPerDay

/-- Embedding of the `NotificationPreference` Django model
(src/notifications/models.py lines 163-199).  Times of day
(`quiet_start`, `quiet_end`) are minutes into the day; `none` models SQL
NULL.  The JSON type-allow maps become association lists from the
notification-type string to the stored boolean. -/
structure NotificationPreference where
  email_notifications : Bool
  email_frequency : String
  push_notifications : Bool
  in_app_notifications : Bool
  email_types : List (String × Bool)
  push_types : List (String × Bool)
  in_app_types : List (String × Bool)
  quiet_hours_enabled : Bool
  quiet_start : Option Nat
  quiet_end : Option Nat
  do_not_disturb : Bool
  do_not_disturb_until : Option Nat
  deriving Repr, DecidableEq

/-- Embedding of `NotificationPreference.get_channel_type`
(models.py lines 236-239): it ignores its receiver and always returns
the string "in_app". -/
def get_channel_type (_p : NotificationPreference) : String := "in_app"

/-- The `getattr(self, f'{channel}_types', {})` dispatch on the channel
name used by `should_send_notification` (models.py line 229): any name
other than the three real fields yields the getattr default `{}`. -/
def typesFor (p : NotificationPreference) (channel : String) : List (String × Bool) :=
  if channel = "email" then p.email_types
  else if channel = "push" then p.push_types
  else if channel = "in_app" then p.in_app_types
  else []

/-- Guard of the do-not-disturb early return (models.py lines 212-214):
`self.do_not_disturb` and `self.do_not_disturb_until and
notification_time < self.do_not_disturb_until` — a NULL
`do_not_disturb_until` is falsy, so the branch is not taken. -/
def dndSuppress (p : NotificationPreference) (notification_time : Nat) : Bool :=
  p.do_not_disturb &&
    (match p.do_not_disturb_until with
     | some u => decide (notification_time < u)
     | none => false)

/-- Guard of the quiet-hours early return (models.py lines 217-226):
requires the flag plus both bounds non-NULL (Python time objects are
always truthy), then the non-overnight or overnight window test. -/
def quietSuppress (p : NotificationPreference) (notification_time : Nat) : Bool :=
  match p.quiet_start, p.quiet_end with
  | some qs, some qe =>
      p.quiet_hours_enabled &&
        (if qs ≤ qe then
          decide (qs ≤ timeOfDay notification_time) &&
            decide (timeOfDay notification_time ≤ qe)
         else
          decide (timeOfDay notification_time ≥ qs) ||
            decide (timeOfDay notification_time ≤ qe))
  | _, _ => false

/-- Embedding of `NotificationPreference.should_send_notification`
(models.py lines 206-234): do-not-disturb check, quiet-hours check, then
lookup of the notification type in `getattr(self,
f'{self.get_channel_type()}_types', {})`, defaulting to `True` when the
type has no entry.  Note the method receives no channel argument in the
source; `get_channel_type` supplies the map name. -/
def should_send_notification (p : NotificationPreference)
    (notification_type : String) (notification_time : Nat) : Bool :=
  if dndSuppress p notification_time then false
  else if quietSuppress p notification_time then false
  else
    match (typesFor p (get_channel_type p)).lookup notification_type with
    | some b => b
    | none => true

/-- Modelled from the spec (section 4.1, for the refinement comparison of
claim C1 only): the claimed `should_deliver(user, type, channel, at_time)`
that consults the type-allow map of the channel actually being
dispatched.  Suppression steps are as in the source; only the map
consulted differs. -/
def should_deliver_spec (p : NotificationPreference) (channel : String)
    (notification_type : String) (notification_time : Nat) : Bool :=
  if dndSuppress p notification_time then false
  else if quietSuppress p notification_time then false
  else
    match (typesFor p channel).lookup notification_type with
    | some b => b
    | none => true

/-- An all-defaults preference record with an email-specific opt-out of
the "info" type, used to separate the code from claim C1's reading. -/
def prefC1 : NotificationPreference :=
  { email_notifications := true
    email_frequency := "immediate"
    push_notifications := true
    in_app_notifications := true
    email_types := [("info", false)]
    push_types := []
    in_app_types := []
    quiet_hours_enabled := false
    quiet_start := none
    quiet_end := none
    do_not_disturb := false
    do_not_disturb_until := none }

/-- A preference record with do-not-disturb set but no until-timestamp,
quiet hours off and empty maps, used against claim C2. -/
def prefC2 : NotificationPreference :=
  { email_notifications := true
    email_frequency := "immediate"
    push_notifications := true
    in_app_notifications := true
    email_types := []
    push_types := []
    in_app_types := []
    quiet_hours_enabled := false
    quiet_start := none
    quiet_end := none
    do_not_disturb := true
    do_not_disturb_until := none }

end Prism

namespace Prism

/-- C1, counterexample.  The claim says that under no suppression an
email dispatch consults `email_types`, so for `prefC1` (whose
`email_types` maps "info" to false) delivery of an "info" email should
be refused.  The code's `should_send_notification` takes no channel and
always consults `in_app_types` (via `get_channel_type`), where "info" is
absent, so it returns true — differing from the claimed channel-specific
consultation. -/
theorem C1_counterexample :
    dndSuppress prefC1 0 = false ∧ quietSuppress prefC1 0 = false ∧
    prefC1.email_types.lookup "info" = some false ∧
    should_send_notification prefC1 "info" 0 = true ∧
    should_deliver_spec prefC1 "email" "info" 0 = false := by
  refine ⟨rfl, rfl, rfl, rfl, rfl⟩

/-- C1, amended.  When neither do-not-disturb nor quiet hours suppress
delivery, `should_send_notification` consults the `in_app_types` map
regardless of the channel being dispatched (because `get_channel_type`
always answers "in_app"): it returns the map's boolean when the type has
an explicit entry and true when the type is absent. -/
theorem C1_in_app_map_consulted (p : NotificationPreference)
    (ty : String) (t : Nat)
    (hdnd : dndSuppress p t = false) (hq : quietSuppress p t = false) :
    should_send_notification p ty t =
      match p.in_app_types.lookup ty with
      | some b => b
      | none => true := by
  unfold should_send_notification
  rw [hdnd, hq]
  simp [typesFor, get_channel_type]

/-- C1, witness for the amended theorem, at `prefC1`, type "info",
time 0: the in-app map is empty so the result is true. -/
theorem C1_in_app_map_consulted_witness :
    should_send_notification prefC1 "info" 0 =
      match prefC1.in_app_types.lookup "info" with
      | some b => b
      | none => true :=
  C1_in_app_map_consulted prefC1 "info" 0 rfl rfl

/-- C2, counterexample.  The claim says that with `do_not_disturb` set
and `do_not_disturb_until` unset, delivery is suppressed.  In the code
the guard `self.do_not_disturb_until and t < self.do_not_disturb_until`
is falsy when the until-timestamp is NULL, so the do-not-disturb branch
is skipped and (with quiet hours off and empty maps) the method returns
true. -/
theorem C2_counterexample :
    prefC2.do_not_disturb = true ∧ prefC2.do_not_disturb_until = none ∧
    should_send_notification prefC2 "info" 5 = true := by
  refine ⟨rfl, rfl, rfl⟩

/-- C2, amended.  With `do_not_disturb` set, delivery is suppressed
exactly when `do_not_disturb_until` is set and the evaluation time is
earlier than it — and then regardless of quiet-hours settings and of the
type-allow maps; when `do_not_disturb_until` is unset, do-not-disturb
suppresses nothing and evaluation falls through to the later checks. -/
theorem C2_dnd_requires_until (p : NotificationPreference)
    (ty : String) (t u : Nat)
    (hdnd : p.do_not_disturb = true)
    (huntil : p.do_not_disturb_until = some u) (ht : t < u) :
    should_send_notification p ty t = false := by
  unfold should_send_notification dndSuppress
  rw [hdnd, huntil]
  simp [ht]

/-- C2, witness for the amended theorem: `prefC2` with the
until-timestamp set to 10 suppresses delivery at time 5. -/
theorem C2_dnd_requires_until_witness :
    should_send_notification { prefC2 with do_not_disturb_until := some 10 }
      "info" 5 = false :=
  C2_dnd_requires_until { prefC2 with do_not_disturb_until := some 10 }
    "info" 5 10 rfl rfl (by decide)

end Prism

namespace Prism

/-- A parsed format string: Python's `"...".format(**context)` applied to
the simple `{name}` templates this repository uses is a sequence of
literal runs and named placeholders. -/
inductive Tok where
  | lit (s : String)
  | var (v : String)
  deriving Repr, DecidableEq

/-- Application of a parsed format string to a context dictionary,
mirroring `self.title_template.format(**context)` (models.py lines
127, 130): a placeholder absent from the context raises KeyError,
embedded as `none`. -/
def formatToks : List Tok → List (String × String) → Option String
  | [], _ => some ""
  | Tok.lit l :: ts, ctx => (formatToks ts ctx).map (fun r => l ++ r)
  | Tok.var v :: ts, ctx =>
      match ctx.lookup v with
      | none => none
      | some x => (formatToks ts ctx).map (fun r => x ++ r)

/-- Placeholder names a parsed format string actually uses. -/
def usedVars (ts : List Tok) : List String :=
  ts.filterMap (fun t => match t with | Tok.lit _ => none | Tok.var v => some v)

/-- Embedding of the `NotificationTemplate` Django model
(models.py lines 92-114), with the two template strings already parsed
into token lists and `last_used` in minutes (`none` models NULL). -/
structure NotificationTemplate where
  name : String
  title_template : List Tok
  message_template : List Tok
  notification_type : String
  is_priority : Bool
  default_target_url : String
  action_required : Bool
  template_variables : List (String × String)
  usage_count : Nat
  last_used : Option Nat
  deriving Repr, DecidableEq

/-- Result dictionary of `NotificationTemplate.render`
(models.py lines 132-139). -/
structure Rendered where
  title : String
  message : String
  notification_type : String
  is_priority : Bool
  action_required : Bool
  target_url : String
  deriving Repr, DecidableEq

/-- Embedding of `NotificationTemplate.render` (models.py lines
122-139): format the title, then the message, then build the result
dictionary with `target_url` from the context when present, else the
template default.  A KeyError in either format call aborts the render. -/
def render (tpl : NotificationTemplate) (ctx : List (String × String)) :
    Option Rendered :=
  match formatToks tpl.title_template ctx with
  | none => none
  | some title =>
    match formatToks tpl.message_template ctx with
    | none => none
    | some message =>
      some { title := title
             message := message
             notification_type := tpl.notification_type
             is_priority := tpl.is_priority
             action_required := tpl.action_required
             target_url := (ctx.lookup "target_url").getD tpl.default_target_url }

/-- Embedding of a stored `Notification` row as far as template-driven
creation populates it (models.py lines 145-154). -/
structure NotificationRec where
  user : Nat
  title : String
  message : String
  notification_type : String
  is_priority : Bool
  action_required : Bool
  target_url : String
  source : String
  deriving Repr, DecidableEq

/-- Embedding of `NotificationTemplate.create_notification` (models.py
lines 141-161): render first — a render failure propagates before
anything is persisted — then create the notification row and only then
bump `usage_count` and `last_used` on the template. -/
def create_notification (tpl : NotificationTemplate) (user : Nat)
    (ctx : List (String × String)) (now : Nat) :
    Option (NotificationRec × NotificationTemplate) :=
  match render tpl ctx with
  | none => none
  | some r =>
    some ({ user := user
            title := r.title
            message := r.message
            notification_type := r.notification_type
            is_priority := r.is_priority
            action_required := r.action_required
            target_url := r.target_url
            source := "template:" ++ tpl.name },
          { tpl with usage_count := tpl.usage_count + 1, last_used := some now })

/-- Placeholders used in either of a template's two format strings. -/
def allUsedVars (tpl : NotificationTemplate) : List String :=
  usedVars tpl.title_template ++ usedVars tpl.message_template

theorem formatToks_isSome (ts : List Tok) (ctx : List (String × String)) :
    (formatToks ts ctx).isSome = true ↔
      ∀ v ∈ usedVars ts, (ctx.lookup v).isSome = true := by
  induction ts with
  | nil => simp [formatToks, usedVars]
  | cons t ts ih =>
    cases t with
    | lit s =>
      have h1 : (formatToks (Tok.lit s :: ts) ctx).isSome =
          (formatToks ts ctx).isSome := by
        simp [formatToks]
      have h2 : usedVars (Tok.lit s :: ts) = usedVars ts := by
        simp [usedVars]
      rw [h1, h2]
      exact ih
    | var v =>
      cases h : ctx.lookup v with
      | none =>
        have h1 : formatToks (Tok.var v :: ts) ctx = none := by
          simp [formatToks, h]
        rw [h1]
        constructor
        · intro hfalse
          simp at hfalse
        · intro hall
          exfalso
          have hv := hall v (by simp [usedVars])
          rw [h] at hv
          simp at hv
      | some x =>
        have h1 : (formatToks (Tok.var v :: ts) ctx).isSome =
            (formatToks ts ctx).isSome := by
          simp [formatToks, h]
        have h2 : usedVars (Tok.var v :: ts) = v :: usedVars ts := by
          simp [usedVars]
        rw [h1, h2]
        constructor
        · intro hs w hw
          rcases List.mem_cons.mp hw with rfl | hw2
          · rw [h]
            rfl
          · exact ih.mp hs w hw2
        · intro hall
          exact ih.mpr (fun w hw => hall w (List.mem_cons_of_mem _ hw))

/-- The template `welcome` of the spec scenario: title "Hi {name}",
message "Welcome, {name}!", declared variable map {"name": "..."}. -/
def tplWelcome : NotificationTemplate :=
  { name := "welcome"
    title_template := [Tok.lit "Hi ", Tok.var "name"]
    message_template := [Tok.lit "Welcome, ", Tok.var "name", Tok.lit "!"]
    notification_type := "info"
    is_priority := false
    default_target_url := ""
    action_required := false
    template_variables := [("name", "recipient display name")]
    usage_count := 0
    last_used := none }

end Prism

namespace Prism

/-- C5, confirmed.  Rendering with a context lacking a used variable
fails (KeyError) and persists nothing: `render` yields no result and
`create_notification` creates no row and leaves the template untouched.
Rendering to a notification with every used variable present succeeds
and bumps `usage_count` by exactly one (and stamps `last_used`). -/
theorem C5_render_missing_fails_present_succeeds
    (tpl : NotificationTemplate) (ctx : List (String × String))
    (user now : Nat) :
    ((∃ v ∈ allUsedVars tpl, ctx.lookup v = none) →
        render tpl ctx = none ∧ create_notification tpl user ctx now = none) ∧
    ((∀ v ∈ allUsedVars tpl, (ctx.lookup v).isSome = true) →
        ∃ n tplU, create_notification tpl user ctx now = some (n, tplU) ∧
          tplU.usage_count = tpl.usage_count + 1 ∧ tplU.last_used = some now) := by
  constructor
  · rintro ⟨v, hv, hnone⟩
    have hfail : render tpl ctx = none := by
      rcases List.mem_append.mp hv with hmem | hmem
      · cases hT : formatToks tpl.title_template ctx with
        | none => simp [render, hT]
        | some s =>
          exfalso
          have := (formatToks_isSome tpl.title_template ctx).mp
            (by simp [hT]) v hmem
          simp [hnone] at this
      · cases hT : formatToks tpl.title_template ctx with
        | none => simp [render, hT]
        | some s =>
          cases hM : formatToks tpl.message_template ctx with
          | none => simp [render, hT, hM]
          | some s2 =>
            exfalso
            have := (formatToks_isSome tpl.message_template ctx).mp
              (by simp [hM]) v hmem
            simp [hnone] at this
    exact ⟨hfail, by simp [create_notification, hfail]⟩
  · intro hall
    have hT : (formatToks tpl.title_template ctx).isSome = true :=
      (formatToks_isSome _ _).mpr fun v hv =>
        hall v (List.mem_append.mpr (Or.inl hv))
    have hM : (formatToks tpl.message_template ctx).isSome = true :=
      (formatToks_isSome _ _).mpr fun v hv =>
        hall v (List.mem_append.mpr (Or.inr hv))
    rcases Option.isSome_iff_exists.mp hT with ⟨t, ht⟩
    rcases Option.isSome_iff_exists.mp hM with ⟨m, hm⟩
    refine ⟨{ user := user
              title := t
              message := m
              notification_type := tpl.notification_type
              is_priority := tpl.is_priority
              action_required := tpl.action_required
              target_url := (ctx.lookup "target_url").getD tpl.default_target_url
              source := "template:" ++ tpl.name },
            { tpl with usage_count := tpl.usage_count + 1, last_used := some now },
            ?_, rfl, rfl⟩
    simp [create_notification, render, ht, hm]

/-- C5, witness: the `welcome` template rendered with an empty context
fails and persists nothing; rendered with {"name": "Ada"} it creates a
notification and bumps `usage_count` to 1. -/
theorem C5_render_missing_fails_present_succeeds_witness :
    (render tplWelcome [] = none ∧
      create_notification tplWelcome 1 [] 0 = none) ∧
    (∃ n tplU, create_notification tplWelcome 1 [("name", "Ada")] 0 =
        some (n, tplU) ∧
      tplU.usage_count = tplWelcome.usage_count + 1 ∧ tplU.last_used = some 0) :=
  ⟨(C5_render_missing_fails_present_succeeds tplWelcome [] 1 0).1
      ⟨"name", by simp [allUsedVars, usedVars, tplWelcome], rfl⟩,
   (C5_render_missing_fails_present_succeeds tplWelcome [("name", "Ada")] 1 0).2
      (by simp [allUsedVars, usedVars, tplWelcome])⟩

end Prism

namespace Prism

/-- Word character of the regex class `\w` used by
`re.findall(r'\{(\w+)\}', ...)` in NotificationTemplateForm.clean
(forms.py line 178). -/
def isWordChar (c : Char) : Bool := c.isAlphanum || c = '_'

/-- Split a character list into its maximal leading run of word
characters and the rest (the greedy `\w+` step of the regex). -/
def takeWord : List Char → List Char × List Char
  | [] => ([], [])
  | c :: cs =>
    if isWordChar c then
      let p := takeWord cs
      (c :: p.1, p.2)
    else ([], c :: cs)

/-- Embedding of `re.findall(r'\{(\w+)\}', s)` on the character list of
`s`: at each position an opening brace followed by a nonempty word run
and a closing brace contributes the word.  Because a matched region
contains no further opening brace, position-by-position scanning emits
exactly the regex's non-overlapping matches in order. -/
def findPlaceholders : List Char → List String
  | [] => []
  | c :: cs =>
    (if c = '{' then
       let p := takeWord cs
       if p.1 ≠ [] ∧ p.2.head? = some '}' then [String.mk p.1] else []
     else []) ++ findPlaceholders cs

/-- Placeholder names extracted from a template string by the form's
regex. -/
def findallVarNames (s : String) : List String := findPlaceholders s.data

/-- Embedding of `NotificationTemplateForm.clean` (forms.py lines
169-190): extract placeholders from both template strings; only when
`template_variables` is truthy (a nonempty dict) check that every
extracted placeholder is a declared key, raising ValidationError
(here: `false`) when one is missing.  Returns `true` when the cleaned
data is accepted. -/
def templateFormClean (title_template message_template : String)
    (template_variables : List (String × String)) : Bool :=
  let all_vars := findallVarNames title_template ++ findallVarNames message_template
  if template_variables.isEmpty then true
  else all_vars.all (fun v => (template_variables.lookup v).isSome)

end Prism

namespace Prism

/-- C6, counterexample.  The claim says a template definition is
rejected whenever an extracted placeholder is absent from the declared
variable map, including when that map is empty.  In the code the whole
check sits under `if template_variables:`, so with an empty (falsy)
declared map the title "Hello {name}" — whose placeholder "name" is
declared nowhere — is accepted. -/
theorem C6_counterexample :
    findallVarNames "Hello {name}" = ["name"] ∧
    templateFormClean "Hello {name}" "" [] = true := by
  constructor
  · rfl
  · rfl

/-- C6, amended.  Validation extracts all `{name}` placeholders from
both template strings; when the declared variable map is nonempty it
rejects exactly when some extracted placeholder is not a declared key,
and when the declared map is empty validation is skipped and the
definition is accepted outright. -/
theorem C6_validation_nonempty_map (title message : String)
    (vars : List (String × String)) :
    (vars = [] → templateFormClean title message vars = true) ∧
    (vars ≠ [] →
      (templateFormClean title message vars = false ↔
        ∃ v ∈ findallVarNames title ++ findallVarNames message,
          vars.lookup v = none)) := by
  constructor
  · intro h
    subst h
    simp [templateFormClean]
  · intro hne
    have hemp : vars.isEmpty = false := by
      cases vars with
      | nil => exact absurd rfl hne
      | cons a l => rfl
    have hform : templateFormClean title message vars =
        List.all (findallVarNames title ++ findallVarNames message)
          (fun v => (vars.lookup v).isSome) := by
      unfold templateFormClean
      rw [hemp]
      rfl
    rw [hform]
    constructor
    · intro h
      by_contra hno
      push_neg at hno
      have hall : List.all (findallVarNames title ++ findallVarNames message)
          (fun v => (vars.lookup v).isSome) = true := by
        rw [List.all_eq_true]
        intro w hw
        cases hc : vars.lookup w with
        | none => exact absurd hc (hno w hw)
        | some b => rfl
      rw [hall] at h
      exact Bool.noConfusion h
    · rintro ⟨v, hv, hnone⟩
      cases hres : List.all (findallVarNames title ++ findallVarNames message)
          (fun v => (vars.lookup v).isSome) with
      | false => rfl
      | true =>
        have hsome := List.all_eq_true.mp hres v hv
        rw [hnone] at hsome
        exact Bool.noConfusion hsome

/-- C6, witness for the amended theorem: an empty map accepts
"Hi {name}", and with the nonempty map {"x": "d"} the same template is
rejected because "name" is undeclared. -/
theorem C6_validation_nonempty_map_witness :
    templateFormClean "Hi {name}" "" [] = true ∧
    (templateFormClean "Hi {name}" "" [("x", "d")] = false ↔
      ∃ v ∈ findallVarNames "Hi {name}" ++ findallVarNames "",
        ([("x", "d")] : List (String × String)).lookup v = none) :=
  ⟨(C6_validation_nonempty_map "Hi {name}" "" []).1 rfl,
   (C6_validation_nonempty_map "Hi {name}" "" [("x", "d")]).2 (by simp)⟩

end Prism

namespace Prism

/-- Embedding of the `NotificationHistory` Django model rows as far as
the mark operations touch them (models.py lines 241-269): the current
status string and the four transition timestamps (minutes, `none` for
NULL). -/
structure HistoryRow where
  channel : String
  status : String
  delivered_at : Option Nat
  read_at : Option Nat
  clicked_at : Option Nat
  dismissed_at : Option Nat
  deriving Repr, DecidableEq

/-- Embedding of `NotificationHistory.mark_delivered` (models.py lines
282-287): whenever the current status differs from "delivered", set it
and stamp `delivered_at`; otherwise do nothing. -/
def mark_delivered (h : HistoryRow) (now : Nat) : HistoryRow :=
  if h.status ≠ "delivered" then
    { h with status := "delivered", delivered_at := some now }
  else h

/-- Embedding of `NotificationHistory.mark_read` (models.py lines
289-294). -/
def mark_read (h : HistoryRow) (now : Nat) : HistoryRow :=
  if h.status ≠ "read" then
    { h with status := "read", read_at := some now }
  else h

/-- Embedding of `NotificationHistory.mark_clicked` (models.py lines
296-301). -/
def mark_clicked (h : HistoryRow) (now : Nat) : HistoryRow :=
  if h.status ≠ "clicked" then
    { h with status := "clicked", clicked_at := some now }
  else h

/-- Embedding of `NotificationHistory.mark_dismissed` (models.py lines
303-308). -/
def mark_dismissed (h : HistoryRow) (now : Nat) : HistoryRow :=
  if h.status ≠ "dismissed" then
    { h with status := "dismissed", dismissed_at := some now }
  else h

/-- A history row that already reached the terminal status "failed",
used against claim C7. -/
def rowFailed : HistoryRow :=
  { channel := "email"
    status := "failed"
    delivered_at := none
    read_at := none
    clicked_at := none
    dismissed_at := none }

/-- A history row at status "read", used to exhibit a backward
transition. -/
def rowRead : HistoryRow :=
  { channel := "in_app"
    status := "read"
    delivered_at := some 1
    read_at := some 2
    clicked_at := none
    dismissed_at := none }

end Prism

namespace Prism

/-- C7, counterexample.  The claim says status only moves forward and a
terminal row ("failed", or past stages) is left unchanged with a
state-conflict error.  The code's mark methods have no such guard: on a
"failed" row `mark_read` quietly rewrites the status to "read", and on a
"read" row `mark_delivered` moves the status backward to "delivered" —
both rows change and nothing is rejected. -/
theorem C7_counterexample :
    rowFailed.status = "failed" ∧ (mark_read rowFailed 5).status = "read" ∧
    mark_read rowFailed 5 ≠ rowFailed ∧
    rowRead.status = "read" ∧ (mark_delivered rowRead 7).status = "delivered" := by
  refine ⟨rfl, rfl, ?_, rfl, rfl⟩
  intro h
  have := congrArg HistoryRow.status h
  exact absurd this (by decide)

/-- C7, amended.  Each mark operation unconditionally rewrites the
status to its own target (stamping the matching timestamp) whenever the
current status differs — including backward moves and moves out of
"failed" — and is a no-op exactly when the row already carries that
status; no transition is ever rejected. -/
theorem C7_marks_unconditional (h : HistoryRow) (now : Nat) :
    ((mark_delivered h now).status = "delivered" ∧
      (mark_read h now).status = "read" ∧
      (mark_clicked h now).status = "clicked" ∧
      (mark_dismissed h now).status = "dismissed") ∧
    (h.status = "delivered" → mark_delivered h now = h) ∧
    (h.status = "read" → mark_read h now = h) ∧
    (h.status = "clicked" → mark_clicked h now = h) ∧
    (h.status = "dismissed" → mark_dismissed h now = h) := by
  refine ⟨⟨?_, ?_, ?_, ?_⟩, ?_, ?_, ?_, ?_⟩
  · unfold mark_delivered
    by_cases hs : h.status = "delivered" <;> simp [hs]
  · unfold mark_read
    by_cases hs : h.status = "read" <;> simp [hs]
  · unfold mark_clicked
    by_cases hs : h.status = "clicked" <;> simp [hs]
  · unfold mark_dismissed
    by_cases hs : h.status = "dismissed" <;> simp [hs]
  · intro hs
    simp [mark_delivered, hs]
  · intro hs
    simp [mark_read, hs]
  · intro hs
    simp [mark_clicked, hs]
  · intro hs
    simp [mark_dismissed, hs]

/-- C7, witness for the amended theorem at the "failed" email row and
time 5: all four target statuses are reached, and the no-op clauses hold
vacuously or trivially at this row. -/
theorem C7_marks_unconditional_witness :
    (((mark_delivered rowFailed 5).status = "delivered" ∧
       (mark_read rowFailed 5).status = "read" ∧
       (mark_clicked rowFailed 5).status = "clicked" ∧
       (mark_dismissed rowFailed 5).status = "dismissed") ∧
     (rowFailed.status = "delivered" → mark_delivered rowFailed 5 = rowFailed) ∧
     (rowFailed.status = "read" → mark_read rowFailed 5 = rowFailed) ∧
     (rowFailed.status = "clicked" → mark_clicked rowFailed 5 = rowFailed) ∧
     (rowFailed.status = "dismissed" → mark_dismissed rowFailed 5 = rowFailed)) :=
  C7_marks_unconditional rowFailed 5

end Prism

namespace Prism

/-- The slice of a Django `User` the dispatch paths read: the optional
1:1 `NotificationPreference` record (`none` embeds the
DoesNotExist/RelatedObjectDoesNotExist case) and the optional truthy
push token probed via `getattr`/`hasattr`. -/
structure DispatchUser where
  pref : Option NotificationPreference
  push_notification_token : Option String
  deriving Repr, DecidableEq

/-- Observable outcome of the post-save signal handler
`send_notification_via_channels` (signals.py lines 88-159):
whether the WebSocket group_send ran, whether control reached the
email-enqueue and push-enqueue statements, the history rows the handler
itself created as (channel, status) pairs, whether it instead promoted
the pre-existing "created" row via `mark_delivered`, and whether an
exception escaped to the outer `except` (line 158). -/
structure DispatchResult where
  realtimeSent : Bool
  emailAttempted : Bool
  pushAttempted : Bool
  newRows : List (String × String)
  deliveredExisting : Bool
  aborted : Bool
  deriving Repr, DecidableEq

/-- Embedding of the signal handler `send_notification_via_channels`
(signals.py lines 88-159) for a newly created notification.  A missing
preference record is caught at line 156 and the handler does nothing.
Otherwise `should_send_notification` gates everything; the in-app block
runs the WebSocket send and either marks the existing "created" history
row delivered or, if that row is absent, creates an ("in_app",
"delivered") row.  The email branch then evaluates
`send_notification_email_task.delay`; `send_notification_email_task` is
a plain function (signals.py line 194), so the attribute access raises
AttributeError, which the outer handler swallows, and the push branch is
never reached.  If the email branch is skipped the push branch's
`send_notification_push_task.delay` raises the same way. -/
def send_notification_via_channels (u : DispatchUser) (ty : String)
    (t : Nat) (hasCreatedRow : Bool) : DispatchResult :=
  match u.pref with
  | none =>
      { realtimeSent := false, emailAttempted := false, pushAttempted := false
        newRows := [], deliveredExisting := false, aborted := false }
  | some p =>
    if !(should_send_notification p ty t) then
      { realtimeSent := false, emailAttempted := false, pushAttempted := false
        newRows := [], deliveredExisting := false, aborted := false }
    else
      let rt := p.in_app_notifications
      let rows := if rt && !hasCreatedRow then [("in_app", "delivered")] else []
      let dExist := rt && hasCreatedRow
      if p.email_notifications && (p.email_frequency = "immediate") then
        { realtimeSent := rt, emailAttempted := true, pushAttempted := false
          newRows := rows, deliveredExisting := dExist, aborted := true }
      else if p.push_notifications && u.push_notification_token.isSome then
        { realtimeSent := rt, emailAttempted := false, pushAttempted := true
          newRows := rows, deliveredExisting := dExist, aborted := true }
      else
        { realtimeSent := rt, emailAttempted := false, pushAttempted := false
          newRows := rows, deliveredExisting := dExist, aborted := false }

/-- Outcome of one of the three Celery channel tasks (tasks.py): the
returned success flag and the history rows the task created. -/
structure TaskResult where
  success : Bool
  newRows : List (String × String)
  deriving Repr, DecidableEq

/-- Embedding of the Celery task `send_notification_email` (tasks.py
lines 16-81): a missing preference record returns the failure dict
"User preferences not found" and creates nothing; a disabled channel or
suppressed type returns failure with nothing created; otherwise the mail
transport is tried (`mailOk` abstracts its outcome) and an ("email",
"sent") or ("email", "failed") history row is created. -/
def send_notification_email (u : DispatchUser) (ty : String) (t : Nat)
    (mailOk : Bool) : TaskResult :=
  match u.pref with
  | none => { success := false, newRows := [] }
  | some p =>
    if !(p.email_notifications && should_send_notification p ty t) then
      { success := false, newRows := [] }
    else if mailOk then { success := true, newRows := [("email", "sent")] }
    else { success := false, newRows := [("email", "failed")] }

/-- Embedding of the Celery task `send_notification_push` (tasks.py
lines 83-134): preference gate as for email, then the push token check;
success creates a ("push", "sent") history row. -/
def send_notification_push (u : DispatchUser) (ty : String) (t : Nat) :
    TaskResult :=
  match u.pref with
  | none => { success := false, newRows := [] }
  | some p =>
    if !(p.push_notifications && should_send_notification p ty t) then
      { success := false, newRows := [] }
    else
      match u.push_notification_token with
      | none => { success := false, newRows := [] }
      | some _ => { success := true, newRows := [("push", "sent")] }

/-- Embedding of the Celery task `send_realtime_notification` (tasks.py
lines 136-191): preference gate on `in_app_notifications` and the type,
then the WebSocket send and an ("in_app", "delivered") history row. -/
def send_realtime_notification (u : DispatchUser) (ty : String) (t : Nat) :
    TaskResult :=
  match u.pref with
  | none => { success := false, newRows := [] }
  | some p =>
    if !(p.in_app_notifications && should_send_notification p ty t) then
      { success := false, newRows := [] }
    else { success := true, newRows := [("in_app", "delivered")] }

/-- Embedding of the post-save receiver `create_notification_history`
(signals.py lines 13-25): every newly created notification
unconditionally gets one ("in_app", "created") history row; no
preference or DND check is performed on this path. -/
def create_notification_history : List (String × String) :=
  [("in_app", "created")]

/-- The full post-save cascade on notification creation: the
unconditional "created" history row, then the dispatch handler (which
sees that row present).  Returns all history rows created plus the
dispatch outcome; it is total, so creation is never blocked. -/
def dispatch_on_create (u : DispatchUser) (ty : String) (t : Nat) :
    List (String × String) × DispatchResult :=
  let r := send_notification_via_channels u ty t true
  (create_notification_history ++ r.newRows, r)

/-- Helper: an active do-not-disturb window forces
`should_send_notification` to answer false, whatever the quiet-hours
settings and type maps say. -/
theorem should_send_notification_dnd_active (p : NotificationPreference)
    (ty : String) (t u : Nat) (hdnd : p.do_not_disturb = true)
    (huntil : p.do_not_disturb_until = some u) (ht : t < u) :
    should_send_notification p ty t = false := by
  unfold should_send_notification dndSuppress
  rw [hdnd, huntil]
  simp [ht]

/-- The dispatch user with no preference record, used for claim C3. -/
def userNoPref : DispatchUser :=
  { pref := none, push_notification_token := none }

end Prism

namespace Prism

/-- C3, counterexample.  The claim says a missing preference record is
treated as all-defaults so channel delivery proceeds.  In the code the
signal handler catches DoesNotExist and does nothing — no WebSocket
send, no enqueue attempts, no history rows — and the email task returns
the failure dict "User preferences not found"; delivery is skipped, not
performed with defaults. -/
theorem C3_counterexample :
    send_notification_via_channels userNoPref "info" 0 true =
      { realtimeSent := false, emailAttempted := false, pushAttempted := false
        newRows := [], deliveredExisting := false, aborted := false } ∧
    (send_notification_email userNoPref "info" 0 true).success = false ∧
    (send_notification_email userNoPref "info" 0 true).newRows = [] := by
  refine ⟨rfl, rfl, rfl⟩

/-- C3, amended.  For a user with no preference record the dispatcher
skips every channel (no send, no enqueue attempt, no history row from
the dispatch handler) and each channel task reports failure and creates
nothing; only the second half of the claim holds as stated: notification
creation is never blocked — the creation cascade still completes and
still records the unconditional ("in_app", "created") history row. -/
theorem C3_missing_pref_skips_channels (u : DispatchUser) (ty : String)
    (t : Nat) (hc mailOk : Bool) (hpref : u.pref = none) :
    send_notification_via_channels u ty t hc =
      { realtimeSent := false, emailAttempted := false, pushAttempted := false
        newRows := [], deliveredExisting := false, aborted := false } ∧
    send_notification_email u ty t mailOk = { success := false, newRows := [] } ∧
    send_notification_push u ty t = { success := false, newRows := [] } ∧
    send_realtime_notification u ty t = { success := false, newRows := [] } ∧
    (dispatch_on_create u ty t).1 = [("in_app", "created")] := by
  obtain ⟨po, tok⟩ := u
  cases hpref
  refine ⟨rfl, rfl, rfl, rfl, rfl⟩

/-- C3, witness for the amended theorem at the concrete preference-less
user. -/
theorem C3_missing_pref_skips_channels_witness :
    send_notification_via_channels userNoPref "info" 0 false =
      { realtimeSent := false, emailAttempted := false, pushAttempted := false
        newRows := [], deliveredExisting := false, aborted := false } ∧
    send_notification_email userNoPref "info" 0 false =
      { success := false, newRows := [] } ∧
    send_notification_push userNoPref "info" 0 = { success := false, newRows := [] } ∧
    send_realtime_notification userNoPref "info" 0 =
      { success := false, newRows := [] } ∧
    (dispatch_on_create userNoPref "info" 0).1 = [("in_app", "created")] :=
  C3_missing_pref_skips_channels userNoPref "info" 0 false false rfl

end Prism

namespace Prism

/-- A preference record in an active do-not-disturb window (until minute
60) with in-app notifications on and everything else at defaults, for
the C8 witness. -/
def prefDnd : NotificationPreference :=
  { email_notifications := true
    email_frequency := "immediate"
    push_notifications := true
    in_app_notifications := true
    email_types := []
    push_types := []
    in_app_types := []
    quiet_hours_enabled := false
    quiet_start := none
    quiet_end := none
    do_not_disturb := true
    do_not_disturb_until := some 60 }

/-- C8, confirmed.  With do-not-disturb set and the until-timestamp in
the future, every dispatch path that performs a DND check — the
post-save dispatch handler and the three channel tasks — creates zero
history rows, performs no send and attempts no enqueue, even when
`in_app_notifications` is true (the DND gate sits before the in-app
toggle is consulted).  Only `create_notification_history`, which
performs no DND check, records its unconditional "created" row. -/
theorem C8_dnd_zero_history_rows (u : DispatchUser)
    (p : NotificationPreference) (ty : String) (t untl : Nat)
    (hc mailOk : Bool) (hpref : u.pref = some p)
    (hdnd : p.do_not_disturb = true)
    (huntil : p.do_not_disturb_until = some untl) (ht : t < untl) :
    (send_notification_via_channels u ty t hc).newRows = [] ∧
    (send_notification_via_channels u ty t hc).realtimeSent = false ∧
    (send_notification_via_channels u ty t hc).emailAttempted = false ∧
    (send_notification_via_channels u ty t hc).pushAttempted = false ∧
    (send_notification_via_channels u ty t hc).deliveredExisting = false ∧
    (send_notification_email u ty t mailOk).newRows = [] ∧
    (send_notification_push u ty t).newRows = [] ∧
    (send_realtime_notification u ty t).newRows = [] := by
  have hs : should_send_notification p ty t = false :=
    should_send_notification_dnd_active p ty t untl hdnd huntil ht
  obtain ⟨po, tok⟩ := u
  cases hpref
  refine ⟨?_, ?_, ?_, ?_, ?_, ?_, ?_, ?_⟩ <;>
    simp [send_notification_via_channels, send_notification_email,
      send_notification_push, send_realtime_notification, hs]

/-- C8, witness: user in the DND window `prefDnd` (until minute 60,
in-app on) dispatched at minute 0 — no dispatch path with a DND check
creates a row. -/
theorem C8_dnd_zero_history_rows_witness :
    (send_notification_via_channels
        { pref := some prefDnd, push_notification_token := some "tok" }
        "info" 0 true).newRows = [] ∧
    (send_notification_via_channels
        { pref := some prefDnd, push_notification_token := some "tok" }
        "info" 0 true).realtimeSent = false ∧
    (send_notification_via_channels
        { pref := some prefDnd, push_notification_token := some "tok" }
        "info" 0 true).emailAttempted = false ∧
    (send_notification_via_channels
        { pref := some prefDnd, push_notification_token := some "tok" }
        "info" 0 true).pushAttempted = false ∧
    (send_notification_via_channels
        { pref := some prefDnd, push_notification_token := some "tok" }
        "info" 0 true).deliveredExisting = false ∧
    (send_notification_email
        { pref := some prefDnd, push_notification_token := some "tok" }
        "info" 0 true).newRows = [] ∧
    (send_notification_push
        { pref := some prefDnd, push_notification_token := some "tok" }
        "info" 0).newRows = [] ∧
    (send_realtime_notification
        { pref := some prefDnd, push_notification_token := some "tok" }
        "info" 0).newRows = [] :=
  C8_dnd_zero_history_rows
    { pref := some prefDnd, push_notification_token := some "tok" }
    prefDnd "info" 0 60 true true rfl rfl rfl (by decide)

/-- C10, confirmed.  The dispatch handler reaches its email-enqueue
statement only when the preference's `email_frequency` is exactly
"immediate" (and `email_notifications` is true); for "daily", "weekly"
or "never" no email send is attempted at creation time. -/
theorem C10_email_only_when_immediate (u : DispatchUser)
    (p : NotificationPreference) (ty : String) (t : Nat) (hc : Bool)
    (hpref : u.pref = some p) :
    ((send_notification_via_channels u ty t hc).emailAttempted = true →
      p.email_frequency = "immediate" ∧ p.email_notifications = true) ∧
    (p.email_frequency = "daily" ∨ p.email_frequency = "weekly" ∨
        p.email_frequency = "never" →
      (send_notification_via_channels u ty t hc).emailAttempted = false) := by
  obtain ⟨po, tok⟩ := u
  cases hpref
  have hmain : (send_notification_via_channels
      { pref := some p, push_notification_token := tok } ty t hc).emailAttempted = true →
      p.email_frequency = "immediate" ∧ p.email_notifications = true := by
    intro hatt
    unfold send_notification_via_channels at hatt
    by_cases hs : should_send_notification p ty t
    · simp only [hs, Bool.not_true, Bool.false_eq_true, if_false] at hatt
      by_cases hem : p.email_notifications && (p.email_frequency = "immediate")
      · rcases Bool.and_eq_true_iff.mp hem with ⟨h1, h2⟩
        exact ⟨by simpa using of_decide_eq_true h2, h1⟩
      · rw [if_neg (by simpa using hem)] at hatt
        by_cases hp : p.push_notifications && tok.isSome
        · rw [if_pos (by simpa using hp)] at hatt
          exact absurd hatt (by simp)
        · rw [if_neg (by simpa using hp)] at hatt
          exact absurd hatt (by simp)
    · simp only [Bool.not_eq_true] at hs
      simp [hs] at hatt
  refine ⟨hmain, ?_⟩
  intro hfreq
  cases hatt : (send_notification_via_channels
      { pref := some p, push_notification_token := tok } ty t hc).emailAttempted with
  | false => rfl
  | true =>
    rcases hmain hatt with ⟨him, _⟩
    rcases hfreq with hf | hf | hf <;> rw [hf] at him <;> exact absurd him (by decide)

/-- A preference record with daily email frequency, all channels on,
empty maps and nothing suppressing, for the C10 witness. -/
def prefDaily : NotificationPreference :=
  { email_notifications := true
    email_frequency := "daily"
    push_notifications := true
    in_app_notifications := true
    email_types := []
    push_types := []
    in_app_types := []
    quiet_hours_enabled := false
    quiet_start := none
    quiet_end := none
    do_not_disturb := false
    do_not_disturb_until := none }

/-- C10, witness: a user whose frequency is "daily" (all channels on,
type allowed) gets no email-enqueue attempt at creation time. -/
theorem C10_email_only_when_immediate_witness :
    ((send_notification_via_channels
        { pref := some prefDaily, push_notification_token := none }
        "info" 0 true).emailAttempted = true →
      prefDaily.email_frequency = "immediate" ∧
      prefDaily.email_notifications = true) ∧
    (prefDaily.email_frequency = "daily" ∨
      prefDaily.email_frequency = "weekly" ∨
      prefDaily.email_frequency = "never" →
      (send_notification_via_channels
        { pref := some prefDaily, push_notification_token := none }
        "info" 0 true).emailAttempted = false) :=
  C10_email_only_when_immediate
    { pref := some prefDaily, push_notification_token := none }
    prefDaily "info" 0 true rfl

end Prism

namespace Prism

/-- Counter/status slice of the `NotificationBatch` model (models.py
lines 310-363). -/
structure BatchState where
  total_count : Nat
  sent_count : Nat
  failed_count : Nat
  status : String
  deriving Repr, DecidableEq

/-- Embedding of `create_notification_batch` (views.py lines 355-372):
the batch is created pending with `total_count = len(user_ids)` and the
id list stored in metadata. -/
def create_notification_batch (user_ids : List Nat) : BatchState :=
  { total_count := user_ids.length
    sent_count := 0
    failed_count := 0
    status := "pending" }

/-- One iteration of the recipient loop of `process_notification_batch`
(tasks.py lines 217-253), acting on the (sent, failed) counter pair.
The user directory is an association list from user id to whether that
user has a preference record; `renderOk` abstracts whether
`batch.template.create_notification` succeeds (template rendering is
uniform across recipients since the per-user context keys are always
added).  An unknown id hits `User.DoesNotExist` and bumps only
`failed_count`; a failed render raises before `sent_count += 1`, bumping
only `failed_count`; for an existing user with a successful render
`sent_count` is bumped first, and if the user then has no preference
record the access `user.notificationpreference` raises inside the same
try, so the generic handler bumps `failed_count` as well — the same
recipient is counted in both counters. -/
def batchStep (users : List (Nat × Bool)) (renderOk : Bool)
    (c : Nat × Nat) (uid : Nat) : Nat × Nat :=
  match users.lookup uid with
  | none => (c.1, c.2 + 1)
  | some hasPref =>
    if renderOk then
      if hasPref then (c.1 + 1, c.2)
      else (c.1 + 1, c.2 + 1)
    else (c.1, c.2 + 1)

/-- Embedding of `process_notification_batch` (tasks.py lines 193-264):
reject a non-pending batch unchanged; fail a batch whose stored id list
is empty; otherwise run the recipient loop over the counters and mark
the batch completed. -/
def process_notification_batch (users : List (Nat × Bool)) (renderOk : Bool)
    (b : BatchState) (user_ids : List Nat) : BatchState :=
  if b.status ≠ "pending" then b
  else if user_ids.isEmpty then { b with status := "failed" }
  else
    let c := user_ids.foldl (batchStep users renderOk) (b.sent_count, b.failed_count)
    { b with sent_count := c.1, failed_count := c.2, status := "completed" }

/-- Helper: when no recipient is an existing user without a preference
record (under a successful render), every loop iteration adds exactly
one to `sent_count + failed_count`. -/
theorem batchStep_sum_one (users : List (Nat × Bool)) (renderOk : Bool)
    (c : Nat × Nat) (uid : Nat)
    (h : ¬(users.lookup uid = some false ∧ renderOk = true)) :
    (batchStep users renderOk c uid).1 + (batchStep users renderOk c uid).2 =
      c.1 + c.2 + 1 := by
  unfold batchStep
  cases hl : users.lookup uid with
  | none =>
    show c.1 + (c.2 + 1) = c.1 + c.2 + 1
    omega
  | some hasPref =>
    cases renderOk with
    | false =>
      show c.1 + (c.2 + 1) = c.1 + c.2 + 1
      omega
    | true =>
      cases hasPref with
      | false => exact absurd ⟨hl, rfl⟩ h
      | true =>
        show c.1 + 1 + c.2 = c.1 + c.2 + 1
        omega

/-- Helper: under the same condition the loop over any id list adds
exactly its length to the counter sum. -/
theorem foldl_batchStep_sum (users : List (Nat × Bool)) (renderOk : Bool)
    (ids : List Nat)
    (h : ∀ uid ∈ ids, ¬(users.lookup uid = some false ∧ renderOk = true)) :
    ∀ c : Nat × Nat,
      (ids.foldl (batchStep users renderOk) c).1 +
        (ids.foldl (batchStep users renderOk) c).2 = c.1 + c.2 + ids.length := by
  induction ids with
  | nil => intro c; simp
  | cons uid ids ih =>
    intro c
    rw [List.foldl_cons]
    have hstep := batchStep_sum_one users renderOk c uid
      (h uid (List.mem_cons_self uid ids))
    have := ih (fun w hw => h w (List.mem_cons_of_mem _ hw))
      (batchStep users renderOk c uid)
    rw [List.length_cons]
    omega

/-- The one-recipient directory exhibiting the C4 violation: user 1
exists but has no preference record. -/
def usersNoPref : List (Nat × Bool) := [(1, false)]

end Prism

namespace Prism

/-- C4, counterexample.  A batch over the single recipient id 1, where
user 1 exists but has no preference record: the loop increments
`sent_count` after creating the notification, then the access
`user.notificationpreference` raises and the generic handler increments
`failed_count` for the same recipient — after completion
`sent_count + failed_count = 2 > 1 = total_count`, so neither the
running invariant nor the final equality of the claim holds. -/
theorem C4_counterexample :
    process_notification_batch usersNoPref true
        (create_notification_batch [1]) [1] =
      { total_count := 1, sent_count := 1, failed_count := 1,
        status := "completed" } ∧
    ¬(1 + 1 ≤ (1 : Nat)) := by
  exact ⟨rfl, by decide⟩

/-- C4, amended.  Provided no recipient id resolves to an existing user
without a preference record while rendering succeeds (such a recipient
is counted in both counters), processing a freshly created pending batch
over a nonempty id list keeps `sent_count + failed_count` equal to the
number of recipients handled so far — hence at most `total_count` — at
every intermediate point, and ends completed with
`sent_count + failed_count = total_count` for any mix of known and
unknown ids. -/
theorem C4_counter_invariant (users : List (Nat × Bool)) (renderOk : Bool)
    (ids : List Nat) (hne : ids ≠ [])
    (hok : ∀ uid ∈ ids, ¬(users.lookup uid = some false ∧ renderOk = true)) :
    (∀ k : Nat,
      ((ids.take k).foldl (batchStep users renderOk) (0, 0)).1 +
        ((ids.take k).foldl (batchStep users renderOk) (0, 0)).2 ≤ ids.length) ∧
    (process_notification_batch users renderOk
        (create_notification_batch ids) ids).sent_count +
      (process_notification_batch users renderOk
        (create_notification_batch ids) ids).failed_count =
      (process_notification_batch users renderOk
        (create_notification_batch ids) ids).total_count ∧
    (process_notification_batch users renderOk
        (create_notification_batch ids) ids).status = "completed" := by
  have hempty : ids.isEmpty = false := by
    cases ids with
    | nil => exact absurd rfl hne
    | cons a l => rfl
  have hproc : process_notification_batch users renderOk
      (create_notification_batch ids) ids =
      { total_count := ids.length
        sent_count := (ids.foldl (batchStep users renderOk) (0, 0)).1
        failed_count := (ids.foldl (batchStep users renderOk) (0, 0)).2
        status := "completed" } := by
    unfold process_notification_batch create_notification_batch
    rw [if_neg (by simp), if_neg (by simp [hempty])]
  refine ⟨?_, ?_, ?_⟩
  · intro k
    have hsub : ∀ uid ∈ ids.take k,
        ¬(users.lookup uid = some false ∧ renderOk = true) :=
      fun uid hu => hok uid (List.mem_of_mem_take hu)
    have := foldl_batchStep_sum users renderOk (ids.take k) hsub (0, 0)
    rw [this]
    simp only [Nat.zero_add, List.length_take]
    exact Nat.min_le_right k ids.length
  · rw [hproc]
    have := foldl_batchStep_sum users renderOk ids hok (0, 0)
    simpa using this
  · rw [hproc]

/-- C4, witness for the amended theorem: ids [1, 2] against a directory
where user 1 has a preference record and id 2 is unknown — the final
state is completed with sent 1, failed 1, total 2. -/
theorem C4_counter_invariant_witness :
    (∀ k : Nat,
      (([1, 2].take k).foldl (batchStep [(1, true)] true) (0, 0)).1 +
        (([1, 2].take k).foldl (batchStep [(1, true)] true) (0, 0)).2 ≤
        ([1, 2] : List Nat).length) ∧
    (process_notification_batch [(1, true)] true
        (create_notification_batch [1, 2]) [1, 2]).sent_count +
      (process_notification_batch [(1, true)] true
        (create_notification_batch [1, 2]) [1, 2]).failed_count =
      (process_notification_batch [(1, true)] true
        (create_notification_batch [1, 2]) [1, 2]).total_count ∧
    (process_notification_batch [(1, true)] true
        (create_notification_batch [1, 2]) [1, 2]).status = "completed" :=
  C4_counter_invariant [(1, true)] true [1, 2] (by simp)
    (by decide)

end Prism

namespace Prism

/-- The fields of a stored `Notification` row the cleanup task reads
(models.py lines 23-44): optional expiry, archived flag, creation
time. -/
structure StoredNotification where
  nid : Nat
  expires_at : Option Nat
  is_archived : Bool
  created_at : Nat
  deriving Repr, DecidableEq

/-- The field of a stored `NotificationHistory` row the cleanup task
reads: its creation time. -/
structure StoredHistory where
  hid : Nat
  created_at : Nat
  deriving Repr, DecidableEq

/-- The two tables the cleanup task touches. -/
structure Store where
  notifications : List StoredNotification
  history : List StoredHistory
  deriving Repr, DecidableEq

/-- Filter `expires_at__lt=now` (tasks.py lines 282-284): rows with a
non-NULL expiry strictly before now. -/
def expiredPred (now : Nat) (n : StoredNotification) : Bool :=
  match n.expires_at with
  | some e => decide (e < now)
  | none => false

/-- Filter `created_at__lt=now - 90 days` (tasks.py lines 287-290),
written additively so the Nat embedding agrees with the datetime
comparison. -/
def oldHistoryPred (now : Nat) (h : StoredHistory) : Bool :=
  decide (h.created_at + 90 * minutesPerDay < now)

/-- Filter `is_archived=True, created_at__lt=now - 180 days` (tasks.py
lines 293-297). -/
def oldArchivedPred (now : Nat) (n : StoredNotification) : Bool :=
  n.is_archived && decide (n.created_at + 180 * minutesPerDay < now)

/-- The three delete sweeps of `cleanup_old_notifications` (tasks.py
lines 281-297) in source order: expired notifications, then history
older than 90 days, then archived notifications older than 180 days
(run against the table as the first sweep left it).  Returns the new
store and the three deleted-row counts. -/
def cleanupDeletes (s : Store) (now : Nat) : Store × Nat × Nat × Nat :=
  (⟨(s.notifications.filter (fun n => !(expiredPred now n))).filter
      (fun n => !(oldArchivedPred now n)),
    s.history.filter (fun h => !(oldHistoryPred now h))⟩,
   (s.notifications.filter (expiredPred now)).length,
   (s.history.filter (oldHistoryPred now)).length,
   ((s.notifications.filter (fun n => !(expiredPred now n))).filter
      (oldArchivedPred now)).length)

/-- Result dict of the cleanup task: the success flag and, on the
success path, the three reported counts. -/
structure CleanupOutcome where
  success : Bool
  reported : Option (Nat × Nat × Nat)
  deriving Repr, DecidableEq

/-- Embedding of the Celery task `cleanup_old_notifications` (tasks.py
lines 275-310).  The three deletes run, but the completion log line
(line 299) interpolates the undefined name `archared_count` — a typo for
`archived_count` — raising NameError before the success dict at line 301
is built; the surrounding `except` catches it and returns
`{'success': False, 'reason': ...}`, so the task always reports failure
and never returns the counts. -/
def cleanup_old_notifications (s : Store) (now : Nat) : Store × CleanupOutcome :=
  ((cleanupDeletes s now).1, { success := false, reported := none })

/-- Helper: rows kept because they refute a predicate never match it
again. -/
theorem filter_not_filter_nil {α : Type} (l : List α) (p : α → Bool) :
    (l.filter (fun a => !(p a))).filter p = [] := by
  rw [List.filter_eq_nil_iff]
  intro a ha
  have h := List.of_mem_filter ha
  simp only [Bool.not_eq_true'] at h
  simp [h]

/-- Helper: the same through one interleaved filtering step. -/
theorem filter_not_filter_filter_nil {α : Type} (l : List α) (p q : α → Bool) :
    (((l.filter (fun a => !(p a))).filter q).filter p) = [] := by
  rw [List.filter_eq_nil_iff]
  intro a ha
  have h := List.of_mem_filter (List.mem_of_mem_filter ha)
  simp only [Bool.not_eq_true'] at h
  simp [h]

end Prism

namespace Prism

/-- C9, code_bug evaluation.  The deletes of the cleanup task are the
three sweeps the claim describes, and run twice at the same instant the
second run deletes zero rows and changes nothing — but the task's
returned report is always `success := false` with no counts, because the
completion log line references the undefined name `archared_count`
(tasks.py line 299) and the resulting NameError routes the return
through the exception handler.  The claim's "returns a successful report
containing the count of rows removed by each of the three sweeps" is the
intended behavior the typo defeats. -/
theorem C9_cleanup_always_fails (s : Store) (now : Nat) :
    (cleanup_old_notifications s now).2.success = false ∧
    (cleanup_old_notifications s now).2.reported = none ∧
    (cleanupDeletes (cleanup_old_notifications s now).1 now).2 = (0, 0, 0) ∧
    (cleanupDeletes (cleanup_old_notifications s now).1 now).1 =
      (cleanup_old_notifications s now).1 := by
  refine ⟨rfl, rfl, ?_, ?_⟩
  · show ((((s.notifications.filter (fun n => !(expiredPred now n))).filter
        (fun n => !(oldArchivedPred now n))).filter (expiredPred now)).length,
      ((s.history.filter (fun h => !(oldHistoryPred now h))).filter
        (oldHistoryPred now)).length,
      ((((s.notifications.filter (fun n => !(expiredPred now n))).filter
        (fun n => !(oldArchivedPred now n))).filter
          (fun n => !(expiredPred now n))).filter (oldArchivedPred now)).length) =
      ((0 : Nat), (0 : Nat), (0 : Nat))
    rw [filter_not_filter_filter_nil (s.notifications.filter
          (fun n => !(expiredPred now n))) (oldArchivedPred now)
          (fun n => !(expiredPred now n)),
        filter_not_filter_filter_nil s.notifications (expiredPred now)
          (fun n => !(oldArchivedPred now n)),
        filter_not_filter_nil s.history (oldHistoryPred now)]
    rfl
  · show Store.mk
        ((((s.notifications.filter (fun n => !(expiredPred now n))).filter
          (fun n => !(oldArchivedPred now n))).filter
            (fun n => !(expiredPred now n))).filter
              (fun n => !(oldArchivedPred now n)))
        ((s.history.filter (fun h => !(oldHistoryPred now h))).filter
          (fun h => !(oldHistoryPred now h))) =
      Store.mk
        ((s.notifications.filter (fun n => !(expiredPred now n))).filter
          (fun n => !(oldArchivedPred now n)))
        (s.history.filter (fun h => !(oldHistoryPred now h)))
    have hn1 : ((s.notifications.filter (fun n => !(expiredPred now n))).filter
          (fun n => !(oldArchivedPred now n))).filter
            (fun n => !(expiredPred now n)) =
        (s.notifications.filter (fun n => !(expiredPred now n))).filter
          (fun n => !(oldArchivedPred now n)) :=
      by
        rw [List.filter_eq_self]
        intro a ha
        have h2 : a ∈ List.filter (fun n => !(expiredPred now n)) s.notifications :=
          List.mem_of_mem_filter ha
        exact (List.mem_filter.mp h2).2
    have hn2 : ((s.notifications.filter (fun n => !(expiredPred now n))).filter
          (fun n => !(oldArchivedPred now n))).filter
            (fun n => !(oldArchivedPred now n)) =
        (s.notifications.filter (fun n => !(expiredPred now n))).filter
          (fun n => !(oldArchivedPred now n)) :=
      by
        rw [List.filter_eq_self]
        intro a ha
        exact (List.mem_filter.mp ha).2
    have hh : (s.history.filter (fun h => !(oldHistoryPred now h))).filter
          (fun h => !(oldHistoryPred now h)) =
        s.history.filter (fun h => !(oldHistoryPred now h)) :=
      by
        rw [List.filter_eq_self]
        intro a ha
        exact (List.mem_filter.mp ha).2
    rw [hn1, hn2, hh]

end Prism
